import Mathlib

/-!
Verification of the latent-worker orchestration core of the buildbot
repository.  The repository slice at hand contains the integration tests
(`master/buildbot/test/integration/test_latent.py`) and the interface and
exception declarations (`master/buildbot/interfaces.py`); the orchestration
implementation itself (latent worker state machine, builder, build-request
distributor, build lifecycle) is not part of the slice, so it is modelled
from the specification and checked against the behaviours the integration
tests pin down.
-/

namespace Latent

/-- Result values of a build, the flat enumeration of
`buildbot.process.results` used by the tests (`SUCCESS`, `WARNINGS`,
`FAILURE`, `SKIPPED`, `EXCEPTION`, `RETRY`, `CANCELLED`). -/
inductive BResult
  | success
  | warnings
  | failure
  | skipped
  | exception
  | retry
  | cancelled
deriving DecidableEq

/-- Errors that can be raised while trying to start a build, from
`master/buildbot/interfaces.py` (lines 34-60). -/
inductive WorkerError
  | builderInUseError
  | workerSetupError
  | latentWorkerFailedToSubstantiate
  | latentWorkerCannotSubstantiate
  | latentWorkerSubstantiatiationCancelled
deriving DecidableEq

/-- Modelled from the spec: the states of the Latent Worker State Machine
(§4.1); the implementation (`buildbot.worker.latent`) is not in the source
slice. -/
inductive WState
  | insubstantiated
  | substantiating
  | substantiatedDisconnected
  | substantiatedConnected
  | insubstantiating
  | quarantined
deriving DecidableEq

/-- Outcome reported by the external start-instance collaborator (§6): a
successful start, an explicit refusal (`start_instance(False)` in the
tests), a raised exception, or the explicitly non-retryable
`LatentWorkerCannotSubstantiate`. -/
inductive StartOutcome
  | started
  | refused
  | raised
  | cannotSubstantiate
deriving DecidableEq

/-- Modelled from the spec: the distinguishing error with which a failed
substantiation attempt resolves (§4.1): `CannotSubstantiate` when the
collaborator explicitly signals a non-retryable condition, else the generic
substantiation failure. -/
def substantiationError : StartOutcome → Option WorkerError
  | .started => none
  | .refused => some .latentWorkerFailedToSubstantiate
  | .raised => some .latentWorkerFailedToSubstantiate
  | .cannotSubstantiate => some .latentWorkerCannotSubstantiate

/-- Modelled from the spec: the Backoff Policy (§2, §4.1): the delay
imposed after the n-th consecutive substantiation failure follows an
exponential schedule starting at `quarantine_initial_timeout`, doubling
for each additional consecutive failure, capped at a configured maximum. -/
def backoff (quarantine_initial_timeout quarantine_max_timeout : Nat) : Nat → Nat
  | 0 => 0
  | n + 1 => min (quarantine_initial_timeout * 2 ^ n) quarantine_max_timeout

/-- Modelled from the spec: per-worker state of the Latent Worker State
Machine (§3, §4.1): name, substantiation state, consecutive-failure
counter, quarantine deadline, current and requested instance kind, timer
origins, and the per-worker timeouts configured in the tests via
`LatentController`.  `setupFault` models a collaborator patched (as by
`patchBot` in the tests) to raise during build setup after attach: the
pair is the error message and the exception name appearing in the trace. -/
structure WorkerState where
  name : String
  wstate : WState
  failures : Nat
  quarantineUntil : Nat
  currentKind : Option String
  startingKind : Option String
  substantiatingSince : Nat
  idleSince : Nat
  quarantine_initial_timeout : Nat
  quarantine_max_timeout : Nat
  missing_timeout : Nat
  build_wait_timeout : Nat
  setupFault : Option (String × String)
deriving DecidableEq

/-- A named build configuration owning the list of names of the workers
eligible to run it (§3, §4.4). -/
structure BuilderCfg where
  id : Nat
  workernames : List String
deriving DecidableEq

/-- A build request: one unit of work, with its candidate builders, its
rendered required instance kind (the core consumes only the resolved
string, §6), and its claimed flag (§3, §4.3). -/
structure Request where
  id : Nat
  builderids : List Nat
  requiredKind : Option String
  claimed : Bool
deriving DecidableEq

/-- Phase of one build attempt (§4.6): `starting` while the worker
substantiates and connects, `running` while steps execute, `resolved`
once a terminal result is recorded. -/
inductive BuildPhase
  | starting
  | running
  | resolved
deriving DecidableEq

/-- One execution attempt of a build request on a worker, with its stored
terminal result once resolved (§3, §4.6). -/
structure Build where
  number : Nat
  builderid : Nat
  requestid : Nat
  workerName : String
  phase : BuildPhase
  results : Option BResult
deriving DecidableEq

/-- Messages observable outside the core: the notification-bus topics
(`buildrequests/*/unclaimed`, `builds/*/finished`, `logs/*/new`, §6) and
the calls issued to the instance lifecycle collaborator
(`startInstance`/`stopInstance`). -/
inductive Notification
  | unclaimed (requestid : Nat)
  | buildFinished (number : Nat) (results : BResult)
  | newLog (filename : String) (message : String) (trace : String)
  | startInstance (worker : String) (kind : Option String)
  | stopInstance (worker : String)
deriving DecidableEq

/-- The whole process-local orchestration state: virtual time, workers,
builders, the request queue, build records, the emitted notifications in
order, and the next build number. -/
structure Sys where
  now : Nat
  workers : List WorkerState
  builders : List BuilderCfg
  requests : List Request
  builds : List Build
  log : List Notification
  nextBuild : Nat
deriving DecidableEq

def updateWorker (ws : List WorkerState) (wn : String) (f : WorkerState → WorkerState) :
    List WorkerState :=
  ws.map fun w => if w.name = wn then f w else w

def updateBuild (bs : List Build) (n : Nat) (f : Build → Build) : List Build :=
  bs.map fun b => if b.number = n then f b else b

def unclaimRequests (rs : List Request) (ids : List Nat) : List Request :=
  rs.map fun r => if r.id ∈ ids then { r with claimed := false } else r

def claimRequest (rs : List Request) (i : Nat) : List Request :=
  rs.map fun r => if r.id = i then { r with claimed := true } else r

/-- Modelled from the spec: the Instance-Kind Matcher contract
`isCompatible(currentKind, requiredKind)` (§4.2): an unset requirement is
compatible with anything, a set requirement only with the same kind. -/
def compatible (current required : Option String) : Bool :=
  match required with
  | none => true
  | some k => decide (current = some k)

/-- Whether an unresolved build is in progress for the given builder on
the given worker: a builder matches exactly one worker per accepted
request at a time (§3, §4.4). -/
def busyOn (bs : List Build) (bid : Nat) (wn : String) : Bool :=
  bs.any fun b =>
    decide (b.builderid = bid ∧ b.workerName = wn ∧ b.phase ≠ BuildPhase.resolved)

/-- Whether any unresolved build is attached to the given worker. -/
def busyAny (bs : List Build) (wn : String) : Bool :=
  bs.any fun b => decide (b.workerName = wn ∧ b.phase ≠ BuildPhase.resolved)

/-- How a matched request is bound to a worker: started immediately on an
already connected compatible instance, coalesced into an in-flight or
pending attach (§4.1, §4.5), or bound to a fresh start-instance call. -/
inductive MatchAction
  | immediate
  | coalesce
  | startNew
deriving DecidableEq

/-- Modelled from the spec: whether a worker is a viable candidate for a
request, and how (§4.2, §4.4, §4.5).  A connected or starting instance is
viable only when kind-compatible; an incompatibly substantiated worker is
not viable and must first fully insubstantiate (§4.2); an insubstantiated
worker, or a quarantined one whose backoff has elapsed, takes a fresh
start-instance call; concurrent requests against a substantiating worker
coalesce into the single in-flight attempt (§4.1). -/
def viable (s : Sys) (r : Request) (bid : Nat) (w : WorkerState) : Option MatchAction :=
  if busyOn s.builds bid w.name then none
  else
    match w.wstate with
    | .substantiatedConnected =>
        if compatible w.currentKind r.requiredKind then some .immediate else none
    | .substantiatedDisconnected =>
        if compatible w.currentKind r.requiredKind then some .coalesce else none
    | .substantiating =>
        if compatible w.startingKind r.requiredKind then some .coalesce else none
    | .insubstantiated => some .startNew
    | .quarantined => if w.quarantineUntil ≤ s.now then some .startNew else none
    | .insubstantiating => none

def findWorkerFor (s : Sys) (r : Request) (bid : Nat) : Option (String × MatchAction) :=
  match s.builders.find? (fun b => decide (b.id = bid)) with
  | none => none
  | some bc =>
      bc.workernames.findSome? fun wn =>
        match s.workers.find? (fun w => decide (w.name = wn)) with
        | none => none
        | some w => (viable s r bid w).map fun a => (wn, a)

def findAssignment (s : Sys) (r : Request) : Option (Nat × String × MatchAction) :=
  r.builderids.findSome? fun bid => (findWorkerFor s r bid).map fun p => (bid, p.1, p.2)

/-- The worker-state update performed when a fresh substantiation attempt
is bound: the worker transitions to `Substantiating` for the given
required kind, with the attempt clocked at the given time (§4.1). -/
def startWorkerUpd (k : Option String) (t : Nat) (w : WorkerState) : WorkerState :=
  { w with wstate := .substantiating, startingKind := k, substantiatingSince := t }

/-- Modelled from the spec: `requestBuild` (§4.4): claim the request and
create the build attempt; when bound to a fresh attempt, transition the
worker to `Substantiating` and invoke the start-instance collaborator with
the required kind of the request. -/
def assign (s : Sys) (r : Request) (bid : Nat) (wn : String) (a : MatchAction) : Sys :=
  let ph : BuildPhase := match a with | .immediate => .running | _ => .starting
  let b : Build :=
    { number := s.nextBuild, builderid := bid, requestid := r.id, workerName := wn,
      phase := ph, results := none }
  let s1 : Sys :=
    { s with requests := claimRequest s.requests r.id,
             builds := s.builds ++ [b],
             nextBuild := s.nextBuild + 1 }
  match a with
  | .startNew =>
      { s1 with
        workers := updateWorker s1.workers wn (startWorkerUpd r.requiredKind s.now),
        log := s1.log ++ [.startInstance wn r.requiredKind] }
  | _ => s1

def tryRequest (s : Sys) (r : Request) : Sys :=
  if r.claimed then s
  else
    match findAssignment s r with
    | none => s
    | some (bid, wn, a) => assign s r bid wn a

/-- Modelled from the spec: one pass of the Build Request Distributor
(§4.5): every unclaimed request is reconsidered, in creation order, and
bound to the first viable worker. -/
def distributorPass (s : Sys) : Sys :=
  s.requests.foldl tryRequest s

/-- Modelled from the spec: a failed substantiation attempt (§4.1, §4.6,
§7): the failure counter is incremented, the worker is quarantined for the
backoff delay, and the build attempts waiting on the attempt are failed:
on the non-retryable `CannotSubstantiate` the build resolves `EXCEPTION`
and the request is not requeued; otherwise the build record is discarded
and the request is unclaimed, publishing one `unclaimed` notification. -/
def failWorker (s : Sys) (wn : String) (cannot : Bool) : Sys :=
  let isWaiting : Build → Bool := fun b =>
    decide (b.workerName = wn ∧ b.phase = BuildPhase.starting)
  let startingBuilds := s.builds.filter isWaiting
  let workers := updateWorker s.workers wn fun w =>
    { w with wstate := .quarantined,
             failures := w.failures + 1,
             quarantineUntil :=
               s.now + backoff w.quarantine_initial_timeout w.quarantine_max_timeout
                 (w.failures + 1),
             startingKind := none }
  if cannot then
    { s with
      workers := workers,
      builds := s.builds.map fun b =>
        if isWaiting b then { b with phase := .resolved, results := some .exception }
        else b }
  else
    { s with
      workers := workers,
      builds := s.builds.filter fun b => !isWaiting b,
      requests := unclaimRequests s.requests (startingBuilds.map (·.requestid)),
      log := s.log ++ startingBuilds.map fun b => .unclaimed b.requestid }

/-- Modelled from the spec: `insubstantiate()` (§4.1): stop the instance
and return to `Insubstantiated`; the failure counter is not reset by a
mere stop. -/
def insubstantiateWorker (s : Sys) (wn : String) : Sys :=
  { s with
    workers := updateWorker s.workers wn fun w =>
      { w with wstate := .insubstantiated, currentKind := none, startingKind := none },
    log := s.log ++ [.stopInstance wn] }

/-- Modelled from the spec: transport attach of a substantiated instance
(§4.1, §6): the worker becomes `Substantiated-Connected` and the waiting
build attempts go through setup and start running.  A collaborator fault
during setup (§7) is logged with the error message and a structured trace
to the text and html build log artifacts, the waiting requests are
unclaimed for retry, and the worker is released; the fault does not
propagate. -/
def connectWorkerFn (s : Sys) (wn : String) : Sys :=
  match s.workers.find? (fun w => decide (w.name = wn)) with
  | none => s
  | some w =>
      if w.wstate = WState.substantiatedDisconnected then
        match w.setupFault with
        | none =>
            { s with
              workers := updateWorker s.workers wn fun w' =>
                { w' with wstate := .substantiatedConnected, idleSince := s.now },
              builds := s.builds.map fun b =>
                if b.workerName = wn ∧ b.phase = BuildPhase.starting then
                  { b with phase := .running }
                else b }
        | some (msg, excName) =>
            let isWaiting : Build → Bool := fun b =>
              decide (b.workerName = wn ∧ b.phase = BuildPhase.starting)
            let startingBuilds := s.builds.filter isWaiting
            insubstantiateWorker
              { s with
                builds := s.builds.filter fun b => !isWaiting b,
                requests := unclaimRequests s.requests (startingBuilds.map (·.requestid)),
                log := s.log
                  ++ [.newLog "err_text" msg excName, .newLog "err_html" msg excName]
                  ++ startingBuilds.map fun b => .unclaimed b.requestid }
              wn
      else s

/-- Modelled from the spec: worker disconnect while builds run (§4.6, §7):
every running build on the worker resolves `RETRY`, its request is
unclaimed, and the latent worker is released for insubstantiation without
penalizing its failure counter. -/
def disconnectWorkerFn (s : Sys) (wn : String) : Sys :=
  match s.workers.find? (fun w => decide (w.name = wn)) with
  | none => s
  | some w =>
      if w.wstate = WState.substantiatedConnected then
        let isRunning : Build → Bool := fun b =>
          decide (b.workerName = wn ∧ b.phase = BuildPhase.running)
        let runningBuilds := s.builds.filter isRunning
        insubstantiateWorker
          { s with
            builds := s.builds.map fun b =>
              if isRunning b then { b with phase := .resolved, results := some .retry }
              else b,
            requests := unclaimRequests s.requests (runningBuilds.map (·.requestid)),
            log := s.log
              ++ runningBuilds.map (fun b => .buildFinished b.number .retry)
              ++ runningBuilds.map fun b => .unclaimed b.requestid }
          wn
      else s

/-- Modelled from the spec: `stopBuild(reason, results)` while the build
is pending or starting (§4.6, §7): the build resolves with the requested
result; `RETRY` additionally unclaims the request so it re-enters the
queue, while `CANCELLED` cancels the pending substantiation
(`cancelSubstantiation`, §4.1) when no other attempt waits on it and does
not requeue. -/
def stopBuildFn (s : Sys) (n : Nat) (r : BResult) : Sys :=
  match s.builds.find? (fun b => decide (b.number = n)) with
  | none => s
  | some b =>
      if b.phase = BuildPhase.starting then
        let builds := updateBuild s.builds n fun b' =>
          { b' with phase := .resolved, results := some r }
        let s1 : Sys := { s with builds := builds }
        if r = BResult.retry then
          { s1 with
            requests := unclaimRequests s1.requests [b.requestid],
            log := s1.log ++ [.unclaimed b.requestid] }
        else
          if r = BResult.cancelled ∧
              ¬ (builds.any fun b' =>
                decide (b'.workerName = b.workerName ∧ b'.phase = BuildPhase.starting)) then
            { s1 with
              workers := updateWorker s1.workers b.workerName fun w =>
                if w.wstate = WState.substantiating then
                  { w with wstate := .insubstantiated, startingKind := none }
                else w }
          else s1
      else s

/-- Modelled from the spec: normal completion of a running build (§4.1,
§4.6): the result is recorded and published, the worker becomes idle
(starting the `build_wait_timeout` timer) and its consecutive-failure
counter resets after the completed build. -/
def finishStepFn (s : Sys) (n : Nat) (r : BResult) : Sys :=
  match s.builds.find? (fun b => decide (b.number = n)) with
  | none => s
  | some b =>
      if b.phase = BuildPhase.running then
        { s with
          builds := updateBuild s.builds n fun b' =>
            { b' with phase := .resolved, results := some r },
          workers := updateWorker s.workers b.workerName fun w =>
            { w with failures := 0, idleSince := s.now },
          log := s.log ++ [.buildFinished n r] }
      else s

/-- Modelled from the spec: advancing the virtual clock (§5): a
substantiating worker whose instance has not connected within
`missing_timeout` fails the attempt the same as an explicit negative
outcome (§4.1), and an idle substantiated worker whose
`build_wait_timeout` has expired insubstantiates. -/
def advanceFn (s : Sys) (dt : Nat) : Sys :=
  let now := s.now + dt
  let s1 : Sys := { s with now := now }
  let missed := s1.workers.filter fun w =>
    decide (w.wstate = WState.substantiating ∧ w.substantiatingSince + w.missing_timeout ≤ now)
  let s2 := (missed.map (·.name)).foldl (fun acc wn => failWorker acc wn false) s1
  let idle := s2.workers.filter fun w =>
    decide (w.wstate = WState.substantiatedConnected ∧ w.idleSince + w.build_wait_timeout ≤ now
      ∧ busyAny s2.builds w.name = false)
  (idle.map (·.name)).foldl (fun acc wn => insubstantiateWorker acc wn) s2

/-- External events driving the orchestration core: request creation, the
asynchronous outcomes of the instance lifecycle and transport
collaborators (§6), build control, step completion, and clock advance. -/
inductive Event
  | createRequest (id : Nat) (builderids : List Nat) (requiredKind : Option String)
  | startInstanceResult (worker : String) (outcome : StartOutcome)
  | connect (worker : String)
  | disconnect (worker : String)
  | stopBuild (number : Nat) (results : BResult)
  | finishStep (number : Nat) (results : BResult)
  | advance (dt : Nat)
deriving DecidableEq

/-- Modelled from the spec: the event-driven orchestration step.  The
distributor loop runs again on every event that could change eligibility
(new request, worker becomes idle, substantiation resolves, timer fires,
§4.5); an externally forced stop is not in that list. -/
def step (s : Sys) (e : Event) : Sys :=
  match e with
  | .createRequest i bids k =>
      distributorPass
        { s with requests := s.requests ++
            [{ id := i, builderids := bids, requiredKind := k, claimed := false }] }
  | .startInstanceResult wn o =>
      match s.workers.find? (fun w => decide (w.name = wn)) with
      | none => s
      | some w =>
          if w.wstate = WState.substantiating then
            match o with
            | .started =>
                distributorPass
                  { s with workers := updateWorker s.workers wn fun w' =>
                      { w' with wstate := .substantiatedDisconnected,
                                currentKind := w'.startingKind, startingKind := none,
                                idleSince := s.now } }
            | .cannotSubstantiate => distributorPass (failWorker s wn true)
            | _ => distributorPass (failWorker s wn false)
          else s
  | .connect wn => distributorPass (connectWorkerFn s wn)
  | .disconnect wn => distributorPass (disconnectWorkerFn s wn)
  | .stopBuild n r => stopBuildFn s n r
  | .finishStep n r => distributorPass (finishStepFn s n r)
  | .advance dt => distributorPass (advanceFn s dt)

/-- Run a list of events from a state. -/
def run (s : Sys) (es : List Event) : Sys :=
  es.foldl step s

/-- A fresh latent worker as configured by `LatentController` in the
tests: insubstantiated, with the given build-wait timeout and optional
patched setup fault, and fixed quarantine and missing timeouts. -/
def mkWorker (name : String) (build_wait : Nat) (fault : Option (String × String)) :
    WorkerState :=
  { name := name, wstate := .insubstantiated, failures := 0, quarantineUntil := 0,
    currentKind := none, startingKind := none, substantiatingSince := 0, idleSince := 0,
    quarantine_initial_timeout := 10, quarantine_max_timeout := 3600,
    missing_timeout := 200, build_wait_timeout := build_wait, setupFault := fault }

def initSys (ws : List WorkerState) (bs : List BuilderCfg) : Sys :=
  { now := 0, workers := ws, builders := bs, requests := [], builds := [],
    log := [], nextBuild := 1 }

/-- The number of `unclaimed` notifications published for a request id. -/
def countUnclaimed (l : List Notification) (i : Nat) : Nat :=
  l.countP fun n => decide (n = .unclaimed i)

/-- The number of `startInstance` calls issued to the collaborator of a worker. -/
def countStartInstance (l : List Notification) (wn : String) : Nat :=
  l.countP fun n =>
    match n with
    | .startInstance w _ => decide (w = wn)
    | _ => false

/-- The instance kinds observed by the collaborator, in call order. -/
def startedKinds (l : List Notification) : List (Option String) :=
  l.filterMap fun n =>
    match n with
    | .startInstance _ k => some k
    | _ => none

/-- The instance lifecycle calls observed by the collaborator, in order. -/
def lifecycleCalls (l : List Notification) : List Notification :=
  l.filter fun n =>
    match n with
    | .startInstance _ _ => true
    | .stopInstance _ => true
    | _ => false

/-- The published finished-build results, in order. -/
def finishedResults (l : List Notification) : List BResult :=
  l.filterMap fun n =>
    match n with
    | .buildFinished _ r => some r
    | _ => none

def getBuild (s : Sys) (n : Nat) : Option Build :=
  s.builds.find? fun b => decide (b.number = n)

def getRequest (s : Sys) (i : Nat) : Option Request :=
  s.requests.find? fun r => decide (r.id = i)

/-- Mirrors `controller.starting` of the fake latent controller: a
start-instance call is pending. -/
def workerStarting (s : Sys) (wn : String) : Bool :=
  match s.workers.find? (fun w => decide (w.name = wn)) with
  | some w => decide (w.wstate = WState.substantiating)
  | none => false

/-- A worker with one in-flight substantiation attempt, parametric over
its history (failure count, timer origins, configured timeouts, requested
kind). -/
def subWorker (wn : String) (fails ss qi qm mt : Nat) (sk : Option String) : WorkerState :=
  { name := wn, wstate := .substantiating, failures := fails, quarantineUntil := 0,
    currentKind := none, startingKind := sk, substantiatingSince := ss, idleSince := 0,
    quarantine_initial_timeout := qi, quarantine_max_timeout := qm,
    missing_timeout := mt, build_wait_timeout := 600, setupFault := none }

/-- A single-builder system awaiting the outcome of one in-flight
substantiation, with the matched request claimed and its build attempt in
the `starting` phase; parametric over virtual time, prior notification
log, ids and kinds, so it stands for an arbitrary reachable
mid-substantiation configuration. -/
def oneSub (now fails ss qi qm mt nb rid : Nat) (wn : String) (sk rk : Option String)
    (log : List Notification) : Sys :=
  { now := now,
    workers := [subWorker wn fails ss qi qm mt sk],
    builders := [{ id := 0, workernames := [wn] }],
    requests := [{ id := rid, builderids := [0], requiredKind := rk, claimed := true }],
    builds := [{ number := nb, builderid := 0, requestid := rid, workerName := wn,
                 phase := .starting, results := none }],
    log := log, nextBuild := nb + 1 }

/-! Concrete scenario systems replaying the integration tests of
`master/buildbot/test/integration/test_latent.py` on the model. -/

/-- Replaying `test_latent_workers_start_in_parallel`: two latent workers, two build
requests for their shared builder. -/
def parallelSys : Sys :=
  run (initSys [mkWorker "local1" 600 none, mkWorker "local2" 600 none]
        [{ id := 0, workernames := ["local1", "local2"] }])
    [.createRequest 1 [0] none, .createRequest 2 [0] none]

/-- Replaying `test_worker_accepts_builds_after_failure`: the successive states of a
worker failing to substantiate twice, observed around the quarantine
backoff deadlines. -/
def backoffSys1 : Sys :=
  run (initSys [mkWorker "local" 600 none] [{ id := 0, workernames := ["local"] }])
    [.createRequest 1 [0] none, .startInstanceResult "local" .raised]

def backoffSys2 : Sys := run backoffSys1 [.advance 10]

def backoffSys3 : Sys := run backoffSys2 [.startInstanceResult "local" .raised]

def backoffSys4 : Sys := run backoffSys3 [.advance 10]

def backoffSys5 : Sys := run backoffSys4 [.advance 10]

/-- Replaying `test_worker_close_connection_while_building`: two requests, one
worker with zero build-wait timeout; first build running. -/
def disconnectSys1 : Sys :=
  run (initSys [mkWorker "local" 0 none] [{ id := 0, workernames := ["local"] }])
    [.createRequest 1 [0] none, .createRequest 2 [0] none,
     .startInstanceResult "local" .started, .connect "local"]

/-- The same scenario after the worker closes the connection mid-build. -/
def disconnectSys2 : Sys := run disconnectSys1 [.disconnect "local"]

/-- The same scenario after a third request, a fresh successful substantiation and
connect: the requeued first request runs again as build 2. -/
def disconnectSys3 : Sys :=
  run disconnectSys2
    [.createRequest 3 [0] none, .startInstanceResult "local" .started, .connect "local"]

def disconnectSys4 : Sys := run disconnectSys3 [.finishStep 2 .success]

/-- Replaying `test_worker_multiple_substantiations_succeed`: two builders sharing
one latent worker, two requests submitted together, one successful
substantiation. -/
def multiSys : Sys :=
  run (initSys [mkWorker "local" 600 none]
        [{ id := 0, workernames := ["local"] }, { id := 1, workernames := ["local"] }])
    [.createRequest 1 [0] none, .createRequest 2 [1] none,
     .startInstanceResult "local" .started, .connect "local",
     .finishStep 1 .success, .finishStep 2 .success]

/-- The same configuration with only the first request distributed: one
substantiation in flight. -/
def multiSysMid : Sys :=
  run (initSys [mkWorker "local" 600 none]
        [{ id := 0, workernames := ["local"] }, { id := 1, workernames := ["local"] }])
    [.createRequest 1 [0] none]

/-- Replaying `test_rejects_build_on_instance_with_different_type_timeout_zero`:
kind `a` build ran and finished; a kind `b` request is pending. -/
def kindZeroSys1 : Sys :=
  run (initSys [mkWorker "local" 0 none] [{ id := 0, workernames := ["local"] }])
    [.createRequest 1 [0] (some "a"), .startInstanceResult "local" .started,
     .connect "local", .createRequest 2 [0] (some "b"), .finishStep 1 .success]

/-- The same scenario after the zero build-wait timeout fires: the worker insubstantiated
and re-substantiated with kind `b`, and both builds finished. -/
def kindZeroSys2 : Sys :=
  run kindZeroSys1
    [.advance 1, .startInstanceResult "local" .started, .connect "local",
     .finishStep 2 .success]

/-- Replaying `test_rejects_build_on_instance_with_different_type_timeout_nonzero`:
as above with build-wait timeout 5, observed just after the first build
finished. -/
def kindWaitSys1 : Sys :=
  run (initSys [mkWorker "local" 5 none] [{ id := 0, workernames := ["local"] }])
    [.createRequest 1 [0] (some "a"), .startInstanceResult "local" .started,
     .connect "local", .createRequest 2 [0] (some "b"), .finishStep 1 .success,
     .advance 1]

/-- The same scenario after waiting past the build-wait timeout. -/
def kindWaitSys2 : Sys :=
  run kindWaitSys1
    [.advance 6, .startInstanceResult "local" .started, .connect "local",
     .finishStep 2 .success]

/-- Replaying `test_failed_sendBuilderList_get_requeued` and `test_failed_ping_get_requeued`:
the setup collaborator of the worker is patched to raise, the instance starts
and connects. -/
def faultSys : Sys :=
  run (initSys [mkWorker "local" 600 (some ("cannot create dir", "TestException"))]
        [{ id := 0, workernames := ["local"] }])
    [.createRequest 1 [0] none, .startInstanceResult "local" .started, .connect "local"]

/-- The build-log artifacts published on the `logs/*/new` topic: filename,
recorded error message, and structured trace. -/
def logArtifacts (l : List Notification) : List (String × String × String) :=
  l.filterMap fun n =>
    match n with
    | .newLog f m t => some (f, m, t)
    | _ => none

/-! Helper lemmas. -/

theorem foldl_eq_self {α β : Type _} (f : β → α → β) (s : β) (l : List α)
    (h : ∀ a ∈ l, f s a = s) : l.foldl f s = s := by
  induction l with
  | nil => rfl
  | cons x xs ih =>
      have hx := h x (List.mem_cons_self x xs)
      rw [List.foldl_cons, hx]
      exact ih fun a ha => h a (List.mem_cons_of_mem x ha)

theorem distributorPass_eq_self (s : Sys) (h : ∀ r ∈ s.requests, tryRequest s r = s) :
    distributorPass s = s :=
  foldl_eq_self tryRequest s s.requests h

theorem tryRequest_of_claimed (s : Sys) (r : Request) (h : r.claimed = true) :
    tryRequest s r = s := by
  simp [tryRequest, h]

theorem tryRequest_of_none (s : Sys) (r : Request) (h : findAssignment s r = none) :
    tryRequest s r = s := by
  simp [tryRequest, h]

/-- Claim C2, main theorem: from any mid-substantiation configuration, a
`LatentWorkerCannotSubstantiate` outcome from the start-instance
collaborator resolves the build with the terminal result `EXCEPTION`
persisted in the store, leaves the request claimed (not retried) with no
notification published (in particular no requeue and no further
start-instance call), and is the distinguished non-retryable error. -/
theorem c2_cannot_substantiate_yields_exception
    (now fails ss qi qm mt nb rid : Nat) (wn : String) (sk rk : Option String)
    (log : List Notification) :
    getBuild (step (oneSub now fails ss qi qm mt nb rid wn sk rk log)
        (.startInstanceResult wn .cannotSubstantiate)) nb =
      some { number := nb, builderid := 0, requestid := rid, workerName := wn,
             phase := .resolved, results := some .exception } ∧
    getRequest (step (oneSub now fails ss qi qm mt nb rid wn sk rk log)
        (.startInstanceResult wn .cannotSubstantiate)) rid =
      some { id := rid, builderids := [0], requiredKind := rk, claimed := true } ∧
    (step (oneSub now fails ss qi qm mt nb rid wn sk rk log)
        (.startInstanceResult wn .cannotSubstantiate)).log = log ∧
    substantiationError .cannotSubstantiate = some .latentWorkerCannotSubstantiate := by
  have hfail : step (oneSub now fails ss qi qm mt nb rid wn sk rk log)
      (.startInstanceResult wn .cannotSubstantiate) =
      distributorPass (failWorker (oneSub now fails ss qi qm mt nb rid wn sk rk log) wn true) := by
    simp [step, oneSub, subWorker]
  have hbody : failWorker (oneSub now fails ss qi qm mt nb rid wn sk rk log) wn true =
      { oneSub now fails ss qi qm mt nb rid wn sk rk log with
        workers := [{ subWorker wn fails ss qi qm mt sk with
          wstate := .quarantined, failures := fails + 1,
          quarantineUntil := now + backoff qi qm (fails + 1), startingKind := none }],
        builds := [{ number := nb, builderid := 0, requestid := rid, workerName := wn,
                     phase := .resolved, results := some .exception }] } := by
    simp [failWorker, oneSub, subWorker, updateWorker]
  have hpass : distributorPass (failWorker (oneSub now fails ss qi qm mt nb rid wn sk rk log) wn true) =
      failWorker (oneSub now fails ss qi qm mt nb rid wn sk rk log) wn true := by
    apply distributorPass_eq_self
    intro r hr
    rw [hbody] at hr
    simp [oneSub] at hr
    exact tryRequest_of_claimed _ r (by rw [hr])
  rw [hfail, hpass, hbody]
  refine ⟨?_, ?_, rfl, rfl⟩
  · simp [getBuild, oneSub]
  · simp [getRequest, oneSub]

theorem backoff_pos (qi qm n : Nat) (hqi : 0 < qi) (hqm : 0 < qm) :
    0 < backoff qi qm (n + 1) := by
  have h2 : 0 < qi * 2 ^ n := Nat.mul_pos hqi (Nat.two_pow_pos n)
  simpa [backoff] using lt_min_iff.mpr ⟨h2, hqm⟩

theorem viable_of_quarantined (s : Sys) (r : Request) (bid : Nat) (w : WorkerState)
    (h : w.wstate = WState.quarantined) (hq : ¬ w.quarantineUntil ≤ s.now) :
    viable s r bid w = none := by
  unfold viable
  rw [h]
  simp [hq]

theorem findWorkerFor_of_all_nonviable (s : Sys) (r : Request) (bid : Nat)
    (h : ∀ w ∈ s.workers, viable s r bid w = none) :
    findWorkerFor s r bid = none := by
  rw [findWorkerFor]
  cases hb : s.builders.find? (fun b => decide (b.id = bid)) with
  | none => rfl
  | some bc =>
      simp only []
      rw [List.findSome?_eq_none_iff]
      intro wn _
      cases hw : s.workers.find? (fun w => decide (w.name = wn)) with
      | none => rfl
      | some w => simp [h w (List.mem_of_find?_eq_some hw)]

theorem findAssignment_of_all_nonviable (s : Sys) (r : Request)
    (h : ∀ bid, ∀ w ∈ s.workers, viable s r bid w = none) :
    findAssignment s r = none := by
  rw [findAssignment, List.findSome?_eq_none_iff]
  intro bid _
  rw [findWorkerFor_of_all_nonviable s r bid (h bid)]
  rfl

/-- Claim C4, main theorem: while the worker is substantiating,
`stopBuild` with `CANCELLED` stores result `CANCELLED` for the build
without requeueing its request, and `stopBuild` with `RETRY` stores result
`RETRY`, unclaims the request and publishes it on the unclaimed topic. -/
theorem c4_stop_during_substantiation
    (now fails ss qi qm mt nb rid : Nat) (wn : String) (sk rk : Option String)
    (log : List Notification) :
    (getBuild (step (oneSub now fails ss qi qm mt nb rid wn sk rk log)
        (.stopBuild nb .cancelled)) nb =
      some { number := nb, builderid := 0, requestid := rid, workerName := wn,
             phase := .resolved, results := some .cancelled } ∧
     (step (oneSub now fails ss qi qm mt nb rid wn sk rk log)
        (.stopBuild nb .cancelled)).log = log ∧
     getRequest (step (oneSub now fails ss qi qm mt nb rid wn sk rk log)
        (.stopBuild nb .cancelled)) rid =
      some { id := rid, builderids := [0], requiredKind := rk, claimed := true }) ∧
    (getBuild (step (oneSub now fails ss qi qm mt nb rid wn sk rk log)
        (.stopBuild nb .retry)) nb =
      some { number := nb, builderid := 0, requestid := rid, workerName := wn,
             phase := .resolved, results := some .retry } ∧
     countUnclaimed (step (oneSub now fails ss qi qm mt nb rid wn sk rk log)
        (.stopBuild nb .retry)).log rid = countUnclaimed log rid + 1 ∧
     getRequest (step (oneSub now fails ss qi qm mt nb rid wn sk rk log)
        (.stopBuild nb .retry)) rid =
      some { id := rid, builderids := [0], requiredKind := rk, claimed := false }) := by
  constructor
  · refine ⟨?_, ?_, ?_⟩ <;>
      simp [step, stopBuildFn, oneSub, subWorker, updateBuild, updateWorker,
        getBuild, getRequest]
  · refine ⟨?_, ?_, ?_⟩ <;>
      simp [step, stopBuildFn, oneSub, subWorker, updateBuild, unclaimRequests,
        getBuild, getRequest, countUnclaimed, List.countP_append, List.countP_cons]

theorem distributorPass_of_quarantined_single (s : Sys) (w : WorkerState)
    (hw : s.workers = [w]) (hst : w.wstate = WState.quarantined)
    (hq : ¬ w.quarantineUntil ≤ s.now) : distributorPass s = s := by
  apply distributorPass_eq_self
  intro r _
  cases h : r.claimed with
  | true => exact tryRequest_of_claimed s r h
  | false =>
      apply tryRequest_of_none
      apply findAssignment_of_all_nonviable
      intro bid w' hw'
      rw [hw] at hw'
      rcases List.mem_singleton.mp hw' with rfl
      exact viable_of_quarantined s r bid w' hst hq

/-- Claim C1, main theorem: from any mid-substantiation configuration,
whichever way the attempt fails — the start-instance collaborator refuses
(`refused`), raises (`raised`), or the instance never connects within
`missing_timeout` — the claimed build request becomes unclaimed again and
exactly one `unclaimed` notification is published for it; the build
attempt is discarded and no new start-instance call is pending (the worker
is quarantined). -/
theorem c1_failed_substantiation_requeued_once
    (now fails ss qi qm mt nb rid : Nat) (wn : String) (sk rk : Option String)
    (log : List Notification) (hqi : 0 < qi) (hqm : 0 < qm) :
    (∀ o : StartOutcome, o = .refused ∨ o = .raised →
      countUnclaimed (step (oneSub now fails ss qi qm mt nb rid wn sk rk log)
          (.startInstanceResult wn o)).log rid = countUnclaimed log rid + 1 ∧
      getRequest (step (oneSub now fails ss qi qm mt nb rid wn sk rk log)
          (.startInstanceResult wn o)) rid =
        some { id := rid, builderids := [0], requiredKind := rk, claimed := false } ∧
      (step (oneSub now fails ss qi qm mt nb rid wn sk rk log)
          (.startInstanceResult wn o)).builds = [] ∧
      workerStarting (step (oneSub now fails ss qi qm mt nb rid wn sk rk log)
          (.startInstanceResult wn o)) wn = false) ∧
    (∀ dt : Nat, ss + mt ≤ now + dt →
      countUnclaimed (step (oneSub now fails ss qi qm mt nb rid wn sk rk log)
          (.advance dt)).log rid = countUnclaimed log rid + 1 ∧
      getRequest (step (oneSub now fails ss qi qm mt nb rid wn sk rk log)
          (.advance dt)) rid =
        some { id := rid, builderids := [0], requiredKind := rk, claimed := false } ∧
      (step (oneSub now fails ss qi qm mt nb rid wn sk rk log)
          (.advance dt)).builds = [] ∧
      workerStarting (step (oneSub now fails ss qi qm mt nb rid wn sk rk log)
          (.advance dt)) wn = false) := by
  have hbackoff := backoff_pos qi qm fails hqi hqm
  constructor
  · intro o ho
    have hstep : step (oneSub now fails ss qi qm mt nb rid wn sk rk log)
        (.startInstanceResult wn o) =
        distributorPass (failWorker (oneSub now fails ss qi qm mt nb rid wn sk rk log) wn false) := by
      rcases ho with rfl | rfl <;> simp [step, oneSub, subWorker]
    have hbody : failWorker (oneSub now fails ss qi qm mt nb rid wn sk rk log) wn false =
        { oneSub now fails ss qi qm mt nb rid wn sk rk log with
          workers := [{ subWorker wn fails ss qi qm mt sk with
            wstate := .quarantined, failures := fails + 1,
            quarantineUntil := now + backoff qi qm (fails + 1), startingKind := none }],
          builds := [],
          requests := [{ id := rid, builderids := [0], requiredKind := rk, claimed := false }],
          log := log ++ [.unclaimed rid] } := by
      simp [failWorker, oneSub, subWorker, updateWorker, unclaimRequests]
    rw [hstep, hbody]
    rw [distributorPass_of_quarantined_single _ _ rfl rfl (by simp [oneSub]; omega)]
    refine ⟨?_, ?_, rfl, ?_⟩
    · simp [countUnclaimed, List.countP_append, List.countP_cons]
    · simp [getRequest, oneSub]
    · simp [workerStarting, oneSub, subWorker]
  · intro dt hdt
    have hstep : step (oneSub now fails ss qi qm mt nb rid wn sk rk log) (.advance dt) =
        distributorPass (advanceFn (oneSub now fails ss qi qm mt nb rid wn sk rk log) dt) := rfl
    have hbody : advanceFn (oneSub now fails ss qi qm mt nb rid wn sk rk log) dt =
        { oneSub now fails ss qi qm mt nb rid wn sk rk log with
          now := now + dt,
          workers := [{ subWorker wn fails ss qi qm mt sk with
            wstate := .quarantined, failures := fails + 1,
            quarantineUntil := now + dt + backoff qi qm (fails + 1), startingKind := none }],
          builds := [],
          requests := [{ id := rid, builderids := [0], requiredKind := rk, claimed := false }],
          log := log ++ [.unclaimed rid] } := by
      simp [advanceFn, oneSub, subWorker, hdt, failWorker, updateWorker, unclaimRequests]
    rw [hstep, hbody]
    rw [distributorPass_of_quarantined_single _ _ rfl rfl (by simp [oneSub]; omega)]
    refine ⟨?_, ?_, rfl, ?_⟩
    · simp [countUnclaimed, List.countP_append, List.countP_cons]
    · simp [getRequest, oneSub]
    · simp [workerStarting, oneSub, subWorker]

/-- Claim C1, witness: the theorem instantiated at a concrete
mid-substantiation configuration, for a refusal and for a missing
timeout. -/
theorem c1_failed_substantiation_requeued_once_witness :
    countUnclaimed (step (oneSub 0 0 0 10 3600 200 1 7 "local" none none [])
        (.startInstanceResult "local" .refused)).log 7 = 1 ∧
    countUnclaimed (step (oneSub 0 0 0 10 3600 200 1 7 "local" none none [])
        (.advance 200)).log 7 = 1 := by
  refine ⟨?_, ?_⟩
  · have h := (c1_failed_substantiation_requeued_once 0 0 0 10 3600 200 1 7 "local"
      none none [] (by decide) (by decide)).1 .refused (Or.inl rfl)
    simpa [countUnclaimed] using h.1
  · have h := (c1_failed_substantiation_requeued_once 0 0 0 10 3600 200 1 7 "local"
      none none [] (by decide) (by decide)).2 200 (by decide)
    simpa [countUnclaimed] using h.1

/-- Claim C10, main theorem: if `stopBuild` resolves the build with
`CANCELLED` or `RETRY` while the worker is substantiating and the
substantiation subsequently fails, the stored result is still the one the
stop requested — the later failure neither overrides it with `EXCEPTION`
nor discards the build record, and it publishes no further `unclaimed`
notification. -/
theorem c10_stop_result_survives_failed_substantiation
    (now fails ss qi qm mt nb rid : Nat) (wn : String) (sk rk : Option String)
    (log : List Notification) (hqi : 0 < qi) (hqm : 0 < qm)
    (r : BResult) (hr : r = .cancelled ∨ r = .retry) :
    getBuild (step (step (oneSub now fails ss qi qm mt nb rid wn sk rk log)
        (.stopBuild nb r)) (.startInstanceResult wn .refused)) nb =
      some { number := nb, builderid := 0, requestid := rid, workerName := wn,
             phase := .resolved, results := some r } ∧
    countUnclaimed (step (step (oneSub now fails ss qi qm mt nb rid wn sk rk log)
        (.stopBuild nb r)) (.startInstanceResult wn .refused)).log rid =
      countUnclaimed (step (oneSub now fails ss qi qm mt nb rid wn sk rk log)
        (.stopBuild nb r)).log rid := by
  rcases hr with rfl | rfl
  · have h1 : step (oneSub now fails ss qi qm mt nb rid wn sk rk log)
        (.stopBuild nb .cancelled) =
        { oneSub now fails ss qi qm mt nb rid wn sk rk log with
          workers := [{ subWorker wn fails ss qi qm mt sk with
            wstate := .insubstantiated, startingKind := none }],
          builds := [{ number := nb, builderid := 0, requestid := rid, workerName := wn,
                       phase := .resolved, results := some .cancelled }] } := by
      simp [step, stopBuildFn, oneSub, subWorker, updateBuild, updateWorker]
    rw [h1]
    have h2 : step ({ oneSub now fails ss qi qm mt nb rid wn sk rk log with
          workers := [{ subWorker wn fails ss qi qm mt sk with
            wstate := .insubstantiated, startingKind := none }],
          builds := [{ number := nb, builderid := 0, requestid := rid, workerName := wn,
                       phase := .resolved, results := some .cancelled }] } : Sys)
        (.startInstanceResult wn .refused) =
        { oneSub now fails ss qi qm mt nb rid wn sk rk log with
          workers := [{ subWorker wn fails ss qi qm mt sk with
            wstate := .insubstantiated, startingKind := none }],
          builds := [{ number := nb, builderid := 0, requestid := rid, workerName := wn,
                       phase := .resolved, results := some .cancelled }] } := by
      simp [step, oneSub, subWorker]
    rw [h2]
    exact ⟨by simp [getBuild], rfl⟩
  · have h1 : step (oneSub now fails ss qi qm mt nb rid wn sk rk log)
        (.stopBuild nb .retry) =
        { oneSub now fails ss qi qm mt nb rid wn sk rk log with
          builds := [{ number := nb, builderid := 0, requestid := rid, workerName := wn,
                       phase := .resolved, results := some .retry }],
          requests := [{ id := rid, builderids := [0], requiredKind := rk, claimed := false }],
          log := log ++ [.unclaimed rid] } := by
      simp [step, stopBuildFn, oneSub, subWorker, updateBuild, unclaimRequests]
    rw [h1]
    have h2 : step ({ oneSub now fails ss qi qm mt nb rid wn sk rk log with
          builds := [{ number := nb, builderid := 0, requestid := rid, workerName := wn,
                       phase := .resolved, results := some .retry }],
          requests := [{ id := rid, builderids := [0], requiredKind := rk, claimed := false }],
          log := log ++ [.unclaimed rid] } : Sys)
        (.startInstanceResult wn .refused) =
        { oneSub now fails ss qi qm mt nb rid wn sk rk log with
          workers := [{ subWorker wn fails ss qi qm mt sk with
            wstate := .quarantined, failures := fails + 1,
            quarantineUntil := now + backoff qi qm (fails + 1), startingKind := none }],
          builds := [{ number := nb, builderid := 0, requestid := rid, workerName := wn,
                       phase := .resolved, results := some .retry }],
          requests := [{ id := rid, builderids := [0], requiredKind := rk, claimed := false }],
          log := log ++ [.unclaimed rid] } := by
      have hbackoff := backoff_pos qi qm fails hqi hqm
      have hbody : failWorker ({ oneSub now fails ss qi qm mt nb rid wn sk rk log with
          builds := [{ number := nb, builderid := 0, requestid := rid, workerName := wn,
                       phase := .resolved, results := some .retry }],
          requests := [{ id := rid, builderids := [0], requiredKind := rk, claimed := false }],
          log := log ++ [.unclaimed rid] } : Sys) wn false =
          { oneSub now fails ss qi qm mt nb rid wn sk rk log with
            workers := [{ subWorker wn fails ss qi qm mt sk with
              wstate := .quarantined, failures := fails + 1,
              quarantineUntil := now + backoff qi qm (fails + 1), startingKind := none }],
            builds := [{ number := nb, builderid := 0, requestid := rid, workerName := wn,
                         phase := .resolved, results := some .retry }],
            requests := [{ id := rid, builderids := [0], requiredKind := rk, claimed := false }],
            log := log ++ [.unclaimed rid] } := by
        simp [failWorker, oneSub, subWorker, updateWorker, unclaimRequests]
      have hstep : step ({ oneSub now fails ss qi qm mt nb rid wn sk rk log with
          builds := [{ number := nb, builderid := 0, requestid := rid, workerName := wn,
                       phase := .resolved, results := some .retry }],
          requests := [{ id := rid, builderids := [0], requiredKind := rk, claimed := false }],
          log := log ++ [.unclaimed rid] } : Sys) (.startInstanceResult wn .refused) =
          distributorPass (failWorker ({ oneSub now fails ss qi qm mt nb rid wn sk rk log with
            builds := [{ number := nb, builderid := 0, requestid := rid, workerName := wn,
                         phase := .resolved, results := some .retry }],
            requests := [{ id := rid, builderids := [0], requiredKind := rk, claimed := false }],
            log := log ++ [.unclaimed rid] } : Sys) wn false) := by
        simp [step, oneSub, subWorker]
      rw [hstep, hbody]
      exact distributorPass_of_quarantined_single _ _ rfl rfl (by simp [oneSub]; omega)
    rw [h2]
    exact ⟨by simp [getBuild], rfl⟩

/-- Claim C10, witness: the theorem instantiated at a concrete
configuration for both stop results. -/
theorem c10_stop_result_survives_failed_substantiation_witness :
    getBuild (step (step (oneSub 0 0 0 10 3600 200 1 7 "local" none none [])
        (.stopBuild 1 .cancelled)) (.startInstanceResult "local" .refused)) 1 =
      some { number := 1, builderid := 0, requestid := 7, workerName := "local",
             phase := .resolved, results := some .cancelled } ∧
    getBuild (step (step (oneSub 0 0 0 10 3600 200 1 7 "local" none none [])
        (.stopBuild 1 .retry)) (.startInstanceResult "local" .refused)) 1 =
      some { number := 1, builderid := 0, requestid := 7, workerName := "local",
             phase := .resolved, results := some .retry } :=
  ⟨(c10_stop_result_survives_failed_substantiation 0 0 0 10 3600 200 1 7 "local"
      none none [] (by decide) (by decide) .cancelled (Or.inl rfl)).1,
   (c10_stop_result_survives_failed_substantiation 0 0 0 10 3600 200 1 7 "local"
      none none [] (by decide) (by decide) .retry (Or.inr rfl)).1⟩

/-- Claim C3, main theorem: the backoff schedule is non-decreasing and
bounded by the configured maximum, starts at `quarantine_initial_timeout`
(capped), doubles per additional consecutive failure until the cap, and
the distributor never matches a quarantined worker before its backoff
deadline.  Concretely, replaying `test_worker_accepts_builds_after_failure`:
after the first failure no retry is pending, a retry is issued after one
`quarantine_initial_timeout`; after the second consecutive failure no
retry is pending after one further `quarantine_initial_timeout`, and a
retry is issued after two. -/
theorem c3_quarantine_backoff :
    (∀ qi qm n, backoff qi qm n ≤ backoff qi qm (n + 1)) ∧
    (∀ qi qm n, backoff qi qm n ≤ qm) ∧
    (∀ qi qm, backoff qi qm 1 = min qi qm) ∧
    (∀ qi qm n, qi * 2 ^ (n + 1) ≤ qm →
      backoff qi qm (n + 2) = 2 * backoff qi qm (n + 1)) ∧
    (∀ (s : Sys) (r : Request) (bid : Nat) (w : WorkerState) (a : MatchAction),
      w.wstate = WState.quarantined → viable s r bid w = some a →
      w.quarantineUntil ≤ s.now) ∧
    (workerStarting backoffSys1 "local" = false ∧
     workerStarting backoffSys2 "local" = true ∧
     workerStarting backoffSys3 "local" = false ∧
     workerStarting backoffSys4 "local" = false ∧
     workerStarting backoffSys5 "local" = true) := by
  refine ⟨?_, ?_, ?_, ?_, ?_, by decide, by decide, by decide, by decide, by decide⟩
  · intro qi qm n
    cases n with
    | zero => exact Nat.zero_le _
    | succ n =>
        exact min_le_min
          (Nat.mul_le_mul_left qi (Nat.pow_le_pow_right (by norm_num) (Nat.le_succ n)))
          le_rfl
  · intro qi qm n
    cases n with
    | zero => exact Nat.zero_le _
    | succ n => exact min_le_right _ _
  · intro qi qm
    simp [backoff]
  · intro qi qm n h
    have h1 : qi * 2 ^ n ≤ qm :=
      le_trans
        (Nat.mul_le_mul_left qi (Nat.pow_le_pow_right (by norm_num) (Nat.le_succ n)))
        h
    simp only [backoff, min_eq_left h, min_eq_left h1]
    rw [pow_succ]
    ring
  · intro s r bid w a hw hv
    by_contra hq
    rw [viable, hw] at hv
    simp [hq] at hv

/-- Claim C3, witness: the doubling law of the theorem instantiated below
the cap. -/
theorem c3_quarantine_backoff_witness :
    backoff 10 3600 3 = 2 * backoff 10 3600 2 :=
  (c3_quarantine_backoff).2.2.2.1 10 3600 1 (by decide)

theorem find?_updateWorker (ws : List WorkerState) (wn wn' : String)
    (f : WorkerState → WorkerState) (hf : ∀ w, (f w).name = w.name) :
    (updateWorker ws wn' f).find? (fun w => decide (w.name = wn)) =
      (ws.find? (fun w => decide (w.name = wn))).map
        (fun w => if w.name = wn' then f w else w) := by
  induction ws with
  | nil => rfl
  | cons x xs ih =>
      have hp : decide ((if x.name = wn' then f x else x).name = wn) = decide (x.name = wn) := by
        by_cases h' : x.name = wn'
        · simp [h', hf]
        · simp [h']
      unfold updateWorker
      simp only [List.map_cons, List.find?_cons, hp]
      cases hx : decide (x.name = wn) with
      | false =>
          simp only [hx]
          exact ih
      | true =>
          simp only [hx]
          rfl

theorem viable_substantiating_ne_startNew (s : Sys) (r : Request) (bid : Nat)
    (w : WorkerState) (h : w.wstate = WState.substantiating) :
    viable s r bid w ≠ some MatchAction.startNew := by
  rw [viable, h]
  by_cases hb : busyOn s.builds bid w.name <;>
    by_cases hc : compatible w.startingKind r.requiredKind <;> simp [hb, hc]

theorem findAssignment_some_elim (s : Sys) (r : Request) (bid : Nat) (wn' : String)
    (a : MatchAction) (h : findAssignment s r = some (bid, wn', a)) :
    ∃ w, s.workers.find? (fun x => decide (x.name = wn')) = some w ∧
      viable s r bid w = some a := by
  rw [findAssignment] at h
  obtain ⟨bid', _, hb⟩ := List.exists_of_findSome?_eq_some h
  cases hw : findWorkerFor s r bid' with
  | none =>
      rw [hw] at hb
      exact Option.noConfusion hb
  | some p =>
      obtain ⟨pw, pa⟩ := p
      rw [hw] at hb
      simp only [Option.map_some'] at hb
      have hb' := Option.some.inj hb
      have hb1 : bid' = bid := congrArg Prod.fst hb'
      have hb2 : pw = wn' := congrArg (fun t => t.2.1) hb'
      have hb3 : pa = a := congrArg (fun t => t.2.2) hb'
      subst hb1; subst hb2; subst hb3
      rw [findWorkerFor] at hw
      cases hbc : s.builders.find? (fun b => decide (b.id = bid')) with
      | none =>
          simp only [hbc] at hw
          exact Option.noConfusion hw
      | some bc =>
          simp only [hbc] at hw
          obtain ⟨wn2, _, hwn⟩ := List.exists_of_findSome?_eq_some hw
          cases hww : s.workers.find? (fun w => decide (w.name = wn2)) with
          | none =>
              simp only [hww] at hwn
              exact Option.noConfusion hwn
          | some w =>
              simp only [hww] at hwn
              cases hv : viable s r bid' w with
              | none =>
                  simp only [hv, Option.map_none'] at hwn
                  exact Option.noConfusion hwn
              | some a' =>
                  simp only [hv, Option.map_some'] at hwn
                  have h2 := Option.some.inj hwn
                  have h3 : wn2 = pw := congrArg Prod.fst h2
                  have h4 : a' = pa := congrArg Prod.snd h2
                  subst h3; subst h4
                  exact ⟨w, hww, hv⟩

theorem tryRequest_coalesces (s : Sys) (r : Request) (wn : String)
    (h : workerStarting s wn = true) :
    countStartInstance (tryRequest s r).log wn = countStartInstance s.log wn ∧
    workerStarting (tryRequest s r) wn = true := by
  rw [tryRequest]
  by_cases hc : r.claimed
  · rw [if_pos hc]
    exact ⟨rfl, h⟩
  · rw [if_neg hc]
    cases ha : findAssignment s r with
    | none => exact ⟨rfl, h⟩
    | some t =>
        obtain ⟨bid, wn', a⟩ := t
        obtain ⟨w, hww, hv⟩ := findAssignment_some_elim s r bid wn' a ha
        rw [workerStarting] at h
        cases hw0 : s.workers.find? (fun x => decide (x.name = wn)) with
        | none => rw [hw0] at h; exact absurd h (by simp)
        | some w0 =>
            rw [hw0] at h
            show countStartInstance (assign s r bid wn' a).log wn =
                countStartInstance s.log wn ∧
              workerStarting (assign s r bid wn' a) wn = true
            cases a with
            | startNew =>
                have hne : wn' ≠ wn := by
                  intro he
                  rw [he] at hww
                  rw [hww] at hw0
                  obtain rfl : w = w0 := Option.some.inj hw0
                  exact viable_substantiating_ne_startNew s r bid w
                    (by simpa using h) hv
                constructor
                · simp [assign, claimRequest, countStartInstance,
                    List.countP_append, List.countP_cons, hne]
                · have hwupd := find?_updateWorker s.workers wn wn'
                    (startWorkerUpd r.requiredKind s.now) (fun _ => rfl)
                  rw [workerStarting]
                  rw [show (assign s r bid wn' MatchAction.startNew).workers =
                      updateWorker s.workers wn'
                        (startWorkerUpd r.requiredKind s.now) from rfl]
                  rw [hwupd, hw0]
                  have hn0 : w0.name = wn := by simpa using List.find?_some hw0
                  simp only [Option.map_some']
                  rw [if_neg (by rw [hn0]; exact fun he => hne he.symm)]
                  exact h
            | coalesce =>
                refine ⟨rfl, ?_⟩
                rw [workerStarting]
                rw [show (assign s r bid wn' MatchAction.coalesce).workers =
                    s.workers from rfl]
                rw [hw0]
                exact h
            | immediate =>
                refine ⟨rfl, ?_⟩
                rw [workerStarting]
                rw [show (assign s r bid wn' MatchAction.immediate).workers =
                    s.workers from rfl]
                rw [hw0]
                exact h

theorem foldl_tryRequest_coalesces (rs : List Request) (s : Sys) (wn : String)
    (h : workerStarting s wn = true) :
    countStartInstance (rs.foldl tryRequest s).log wn = countStartInstance s.log wn ∧
    workerStarting (rs.foldl tryRequest s) wn = true := by
  induction rs generalizing s with
  | nil => exact ⟨rfl, h⟩
  | cons x xs ih =>
      have hx := tryRequest_coalesces s x wn h
      have hxs := ih (tryRequest s x) hx.2
      rw [List.foldl_cons]
      exact ⟨by rw [hxs.1, hx.1], hxs.2⟩

/-- Claim C6, main theorem: while a start-instance call is in flight for a
worker, a distributor pass issues no further start-instance call for it —
concurrent substantiation requests coalesce into the single in-flight
attempt — and, replaying `test_worker_multiple_substantiations_succeed`,
two requests on two builders sharing one worker lead to exactly one
start-instance call and both builds finish with `SUCCESS`. -/
theorem c6_single_start_coalesced :
    (∀ (s : Sys) (wn : String), workerStarting s wn = true →
      countStartInstance (distributorPass s).log wn = countStartInstance s.log wn) ∧
    countStartInstance multiSys.log "local" = 1 ∧
    finishedResults multiSys.log = [.success, .success] := by
  refine ⟨?_, by decide, by decide⟩
  intro s wn h
  exact (foldl_tryRequest_coalesces s.requests s wn h).1

/-- Claim C6, witness: the coalescing law instantiated at the concrete
configuration with one substantiation in flight and a second request
pending. -/
theorem c6_single_start_coalesced_witness :
    countStartInstance (distributorPass multiSysMid).log "local" =
      countStartInstance multiSysMid.log "local" :=
  (c6_single_start_coalesced).1 multiSysMid "local" (by decide)

/-- Claim C5, main theorem: replaying
`test_worker_close_connection_while_building`: with the first build of
request 1 running and the worker disconnecting, the build resolves
`RETRY`, one `unclaimed` notification for the request is published and the
failure counter of the worker is not penalized; after a subsequent successful
substantiation and connection, the same request 1 runs again as build 2
and completes `SUCCESS`. -/
theorem c5_disconnect_retries_then_succeeds :
    (getBuild disconnectSys1 1).map (fun b => (b.requestid, b.results)) = some (1, none) ∧
    (getBuild disconnectSys2 1).map (fun b => (b.requestid, b.results)) =
      some (1, some .retry) ∧
    countUnclaimed disconnectSys2.log 1 = 1 ∧
    disconnectSys2.workers.map (fun w => w.failures) = [0] ∧
    (getBuild disconnectSys3 2).map (fun b => (b.requestid, b.results)) = some (1, none) ∧
    (getBuild disconnectSys4 2).map (fun b => (b.requestid, b.results)) =
      some (1, some .success) := by
  decide

/-- Claim C7, main theorem: a worker substantiated (connected or
disconnected) with a kind incompatible with the required kind of a request is
never a viable candidate for it, and, replaying the two
`test_rejects_build_on_instance_with_different_type` scenarios: the kind
`b` build does not start while the worker still runs kind `a` (also under
a nonzero build-wait timeout), the worker fully insubstantiates before the
kind `b` start-instance call, and the kinds observed by the instance
collaborator at the two build starts are exactly the required `a` then
`b`. -/
theorem c7_kind_mismatch_forces_insubstantiation :
    (∀ (s : Sys) (r : Request) (bid : Nat) (w : WorkerState),
      w.wstate = WState.substantiatedConnected →
      compatible w.currentKind r.requiredKind = false →
      viable s r bid w = none) ∧
    (∀ (s : Sys) (r : Request) (bid : Nat) (w : WorkerState),
      w.wstate = WState.substantiatedDisconnected →
      compatible w.currentKind r.requiredKind = false →
      viable s r bid w = none) ∧
    (getBuild kindZeroSys1 2 = none ∧
     startedKinds kindZeroSys1.log = [some "a"] ∧
     lifecycleCalls kindZeroSys2.log =
       [.startInstance "local" (some "a"), .stopInstance "local",
        .startInstance "local" (some "b")] ∧
     kindZeroSys2.workers.map (fun w => w.currentKind) = [some "b"] ∧
     (getBuild kindZeroSys2 1).map (fun b => b.results) = some (some .success) ∧
     (getBuild kindZeroSys2 2).map (fun b => b.results) = some (some .success)) ∧
    (getBuild kindWaitSys1 2 = none ∧
     kindWaitSys1.workers.map (fun w => w.wstate) = [.substantiatedConnected] ∧
     lifecycleCalls kindWaitSys2.log =
       [.startInstance "local" (some "a"), .stopInstance "local",
        .startInstance "local" (some "b")] ∧
     (getBuild kindWaitSys2 1).map (fun b => b.results) = some (some .success) ∧
     (getBuild kindWaitSys2 2).map (fun b => b.results) = some (some .success)) := by
  refine ⟨?_, ?_, by decide, by decide⟩
  · intro s r bid w h hc
    rw [viable, h]
    simp [hc]
  · intro s r bid w h hc
    rw [viable, h]
    simp [hc]

/-- Claim C7, witness: the non-viability law instantiated at a worker
connected with kind `a` facing a request requiring kind `b`. -/
theorem c7_kind_mismatch_forces_insubstantiation_witness :
    viable (initSys [] [])
      { id := 1, builderids := [0], requiredKind := some "b", claimed := false } 0
      { mkWorker "local" 0 none with wstate := .substantiatedConnected, currentKind := some "a" } = none :=
  (c7_kind_mismatch_forces_insubstantiation).1 (initSys [] [])
    { id := 1, builderids := [0], requiredKind := some "b", claimed := false } 0
    { mkWorker "local" 0 none with wstate := .substantiatedConnected, currentKind := some "a" } rfl (by decide)

/-- Claim C8, main theorem: replaying
`test_failed_sendBuilderList_get_requeued` / `test_failed_ping_get_requeued`:
when the setup collaborator raises after successful substantiation and
connection, the fault is recorded in exactly the text and html build log
artifacts, each carrying the error message and the structured trace
naming the exception; exactly one `unclaimed` notification requeues the
request, the build record of the failed attempt is discarded, and the
distributor loop is not aborted — it issues a fresh start-instance call
for the requeued request. -/
theorem c8_setup_fault_logged_and_requeued :
    logArtifacts faultSys.log =
      [("err_text", "cannot create dir", "TestException"),
       ("err_html", "cannot create dir", "TestException")] ∧
    countUnclaimed faultSys.log 1 = 1 ∧
    getBuild faultSys 1 = none ∧
    countStartInstance faultSys.log "local" = 2 := by
  decide

/-- Claim C9, main theorem: replaying
`test_latent_workers_start_in_parallel`: two build requests for a builder
with two latent workers trigger both start-instance calls concurrently —
after the two requests are distributed, and before either substantiation
outcome arrives, both workers have a start pending and each received
exactly one start-instance call. -/
theorem c9_parallel_substantiation :
    workerStarting parallelSys "local1" = true ∧
    workerStarting parallelSys "local2" = true ∧
    countStartInstance parallelSys.log "local1" = 1 ∧
    countStartInstance parallelSys.log "local2" = 1 := by
  decide

end Latent
